import Mathlib

/-
Verification of the go-observability library (ecoma-io/go-observability).

Shallow embedding of the instrumentation chain (gin middleware, gRPC
interceptors), the logger constructor, and the OpenTelemetry shutdown
procedure, transcribed from the Go sources, together with theorems
settling the specification claims.
-/

namespace GoObservability

/-- Log severity levels used by the Logger facade (logger.go). -/
inductive LogLevel where
  | debug
  | info
  | warn
  | error
deriving DecidableEq, Repr

/-- The gRPC status codes (google.golang.org/grpc/codes). -/
inductive GrpcCode where
  | ok
  | cancelled
  | unknown
  | invalidArgument
  | deadlineExceeded
  | notFound
  | alreadyExists
  | permissionDenied
  | resourceExhausted
  | failedPrecondition
  | aborted
  | outOfRange
  | unimplemented
  | internal
  | unavailable
  | dataLoss
  | unauthenticated
deriving DecidableEq, Repr

/-- The literal all-zero trace identifier string (32 zero characters),
compared against in gin_middleware.go:48 and grpc_interceptor.go:49. -/
def zeroTraceId : String := "00000000000000000000000000000000"

/-- The literal all-zero span identifier string (16 zero characters),
compared against in gin_middleware.go:51 and grpc_interceptor.go:52. -/
def zeroSpanId : String := "0000000000000000"

/-- ObservabilityMiddlewareConfig from src/unnamed/part_001 lines 16-22:
an excluded-path list and an optional skip predicate. -/
structure ObservabilityMiddlewareConfig where
  ExcludedPaths : List String
  SkipRoute : Option (String → Bool)

/-- shouldSkipRoute from src/unnamed/part_001 lines 25-43. The Go method has
a pointer receiver with a nil check, embedded here as an Option argument; the
range loop over ExcludedPaths comparing with == is embedded as List.any. -/
def shouldSkipRoute (c : Option ObservabilityMiddlewareConfig) (path : String) : Bool :=
  match c with
  | none => false
  | some cfg =>
    match cfg.SkipRoute with
    | some f => f path
    | none => cfg.ExcludedPaths.any (fun excluded => path == excluded)

/-- Spec-shaped skip decision, following the words of claim C6: predicate
result when given, else string-equality membership in the excluded-path list,
else (including absent config) false. Used only for comparison with
shouldSkipRoute. -/
def specSkipRoute (c : Option ObservabilityMiddlewareConfig) (path : String) : Bool :=
  match c with
  | none => false
  | some cfg =>
    match cfg.SkipRoute with
    | some f => f path
    | none => decide (path ∈ cfg.ExcludedPaths)

/-- Severity classification of the HTTP request log, from the switch in
gin_middleware.go lines 61-68 (identical in src/unnamed/part_001 143-150). -/
def ginLogSeverity (statusCode : Nat) : LogLevel :=
  if statusCode ≥ 500 then .error
  else if statusCode ≥ 400 then .warn
  else .info

/-- Severity classification of the gRPC request log, from the switch in
grpc_interceptor.go lines 61-71. -/
def grpcLogSeverity (code : GrpcCode) : LogLevel :=
  match code with
  | .ok => .info
  | .cancelled | .invalidArgument | .notFound | .alreadyExists
  | .permissionDenied | .unauthenticated | .failedPrecondition
  | .outOfRange => .warn
  | _ => .error

/-- The client-fault code set enumerated by the spec for warning severity. -/
def grpcClientFaultCodes : List GrpcCode :=
  [.cancelled, .invalidArgument, .notFound, .alreadyExists,
   .permissionDenied, .unauthenticated, .failedPrecondition, .outOfRange]

/-- Spec-shaped HTTP severity, following the words of claim C7: status ≥ 500
maps to error, 400-499 to warning, anything else to info. Used only for
comparison with ginLogSeverity. -/
def specHttpSeverity (statusCode : Nat) : LogLevel :=
  if 500 ≤ statusCode then .error
  else if 400 ≤ statusCode ∧ statusCode ≤ 499 then .warn
  else .info

/-- Spec-shaped gRPC severity, following the words of claim C7: OK maps to
info, the client-fault set to warning, any other non-OK code to error. Used
only for comparison with grpcLogSeverity. -/
def specGrpcSeverity (code : GrpcCode) : LogLevel :=
  if code = .ok then .info
  else if code ∈ grpcClientFaultCodes then .warn
  else .error

/-- The log field list assembled by GinLogger, from gin_middleware.go lines
37-58: base fields, then trace_id and span_id appended only when non-empty
and not the all-zero literal, then an error field when the gin error string
is non-empty. Values are embedded as strings. -/
def ginLogFields (status : Nat) (method path query ip userAgent : String)
    (latencyMs : Int) (traceID spanID errorMessage : String) :
    List (String × String) :=
  [("status", toString status), ("method", method), ("path", path),
   ("query", query), ("ip", ip), ("latency_ms", toString latencyMs),
   ("user_agent", userAgent)]
  ++ (if traceID != "" && traceID != zeroTraceId then [("trace_id", traceID)] else [])
  ++ (if spanID != "" && spanID != zeroSpanId then [("span_id", spanID)] else [])
  ++ (if errorMessage != "" then [("error", errorMessage)] else [])

/-- The log field list assembled by GrpcUnaryServerInterceptor, from
grpc_interceptor.go lines 42-59: method, code and latency, then trace_id and
span_id under the same non-zero conditions, then an error field when the
handler returned an error. -/
def grpcLogFields (fullMethod grpcCode : String) (latencyMs : Int)
    (traceID spanID : String) (errMessage : Option String) :
    List (String × String) :=
  [("method", fullMethod), ("grpc_code", grpcCode),
   ("latency_ms", toString latencyMs)]
  ++ (if traceID != "" && traceID != zeroTraceId then [("trace_id", traceID)] else [])
  ++ (if spanID != "" && spanID != zeroSpanId then [("span_id", spanID)] else [])
  ++ (match errMessage with | some e => [("error", e)] | none => [])

/-- Whether a field list contains a field with the given key. -/
def hasKey (fields : List (String × String)) (key : String) : Bool :=
  fields.any (fun kv => kv.1 == key)

/-- ErrorResponse from gin_middleware.go lines 73-78; TraceID carries
omitempty, so the empty string means the field is absent from the JSON. -/
structure ErrorResponse where
  Error : String
  Message : String
  TraceID : String
  Path : String
deriving DecidableEq, Repr

/-- The fixed generic message of the HTTP panic response
(gin_middleware.go:105, src/unnamed/part_001:198). -/
def genericHttpMessage : String := "An unexpected error occurred. Please try again later."

/-- The fixed generic message of the gRPC Internal status
(grpc_interceptor.go:176). -/
def genericGrpcMessage : String := "Internal server error occurred"

/-- Validity test applied to a trace identifier before exposing it:
non-empty and not the all-zero literal. -/
def validTraceId (tid : String) : Bool := tid != "" && tid != zeroTraceId

/-- The per-request data the middleware chain reads: route path, method and
the ambient trace identifier of the request context. -/
structure HttpRequest where
  path : String
  method : String
  traceID : String
deriving Repr

/-- Outcome of the innermost HTTP handler: either it completes with a
status code, or it panics with a payload (the string form of the value). -/
inductive HandlerOutcome where
  | completes (status : Nat)
  | panics (payload : String)
deriving DecidableEq, Repr

/-- Outcome of the chain seen by the caller of the outermost stage. -/
inductive ChainOutcome where
  | normal (status : Nat)
  | panicked (payload : String)
deriving DecidableEq, Repr

/-- One server-side error log record emitted by a recovery stage, with the
fields of the logger.Error call in src/unnamed/part_001 lines 187-193. -/
structure PanicLog where
  errorField : String
  traceId : String
  route : String
  method : String
  stackNonEmpty : Bool
deriving DecidableEq, Repr

/-- Observable result of running the middleware chain on one request:
final outcome, number of spans created, number of request log records,
the panic error log records, and the 500 response written by recovery. -/
structure StepResult where
  outcome : ChainOutcome
  spans : Nat
  requestLogs : Nat
  panicLogs : List PanicLog
  response : Option (Nat × ErrorResponse)
deriving DecidableEq, Repr

/-- The innermost handler as a chain element. -/
def runHandler (h : HandlerOutcome) : StepResult :=
  match h with
  | .completes s => ⟨.normal s, 0, 0, [], none⟩
  | .panics p => ⟨.panicked p, 0, 0, [], none⟩

/-- GinLoggerWithConfig from src/unnamed/part_001 lines 90-152, as a
transformer of the inner chain result. On a skip route it passes straight
through. Otherwise the log statement sits after c.Next(), so it runs only
when the inner call returns normally; a panic unwinds past it unlogged. -/
def ginLoggerWithConfig (cfg : Option ObservabilityMiddlewareConfig)
    (req : HttpRequest) (inner : StepResult) : StepResult :=
  if shouldSkipRoute cfg req.path then inner
  else
    match inner.outcome with
    | .panicked _ => inner
    | .normal _ => { inner with requestLogs := inner.requestLogs + 1 }

/-- GinRecoveryWithConfig from src/unnamed/part_001 lines 168-214, as a
transformer of the inner chain result. A normal inner return passes through
unchanged. A panic on a skip route is re-raised (lines 173-176). A panic on
a non-skip route is logged with the payload, raw trace id, path, method and
a stack trace, and converted into a 500 response whose body carries the
fixed error and message strings, the path, and the trace id only when it is
valid. -/
def ginRecoveryWithConfig (cfg : Option ObservabilityMiddlewareConfig)
    (req : HttpRequest) (inner : StepResult) : StepResult :=
  match inner.outcome with
  | .normal _ => inner
  | .panicked p =>
    if shouldSkipRoute cfg req.path then inner
    else
      { inner with
        outcome := .normal 500
        panicLogs := inner.panicLogs ++ [⟨p, req.traceID, req.path, req.method, true⟩]
        response := some (500,
          { Error := "Internal Server Error"
            Message := genericHttpMessage
            TraceID := if validTraceId req.traceID then req.traceID else ""
            Path := req.path }) }

/-- GinTracingWithConfig from src/unnamed/part_001 lines 51-82, as a
transformer of the inner chain result. On a skip route no span is created;
otherwise exactly one span is started and ended unconditionally (deferred
end), whatever the inner outcome. -/
def ginTracingWithConfig (cfg : Option ObservabilityMiddlewareConfig)
    (req : HttpRequest) (inner : StepResult) : StepResult :=
  if shouldSkipRoute cfg req.path then inner
  else { inner with spans := inner.spans + 1 }

/-- GinMiddlewareWithConfig from src/unnamed/part_001 lines 224-230 applied
to one request: the Tracing stage wraps the Recovery stage, which wraps the
Logging stage, which wraps the handler. -/
def runGinChain (cfg : Option ObservabilityMiddlewareConfig)
    (req : HttpRequest) (h : HandlerOutcome) : StepResult :=
  ginTracingWithConfig cfg req
    (ginRecoveryWithConfig cfg req
      (ginLoggerWithConfig cfg req (runHandler h)))

/-- A gRPC status as code plus message. -/
structure GrpcStatus where
  code : GrpcCode
  message : String
deriving DecidableEq, Repr

/-- Outcome of a gRPC unary handler. -/
inductive GrpcHandlerOutcome where
  | returns (err : Option GrpcStatus)
  | panics (payload : String)
deriving DecidableEq, Repr

/-- One server-side error log record of the gRPC recovery interceptor
(grpc_interceptor.go lines 160-165). -/
structure GrpcPanicLog where
  errorField : String
  traceId : String
  method : String
  stackNonEmpty : Bool
deriving DecidableEq, Repr

/-- Observable result of GrpcUnaryRecoveryInterceptor around one call. -/
structure GrpcRecoveryResult where
  err : Option GrpcStatus
  trailer : List (String × String)
  panicLogs : List GrpcPanicLog
deriving DecidableEq, Repr

/-- GrpcUnaryRecoveryInterceptor from grpc_interceptor.go lines 142-182. A
normal handler return is propagated unchanged with no trailer and no log.
A panic is logged with payload, trace id, method and stack; the trace id is
attached as trailer metadata only when valid; the returned error is the
generic Internal status. -/
def grpcUnaryRecoveryInterceptor (fullMethod traceID : String)
    (h : GrpcHandlerOutcome) : GrpcRecoveryResult :=
  match h with
  | .returns e => ⟨e, [], []⟩
  | .panics p =>
    { err := some ⟨.internal, genericGrpcMessage⟩
      trailer := if validTraceId traceID then [("trace_id", traceID)] else []
      panicLogs := [⟨p, traceID, fullMethod, true⟩] }

/-- The three instrumentation stages. -/
inductive Stage where
  | tracing
  | recovery
  | logging
deriving DecidableEq, Repr

/-- The stage order of GinMiddlewareWithConfig, src/unnamed/part_001 lines
224-230: Tracing, Recovery, Logging. -/
def ginMiddlewareWithConfigStages : List Stage := [.tracing, .recovery, .logging]

/-- The stage order of the two-stage GinMiddleware, src/gin_middleware.go
lines 125-130: Recovery, Logging. -/
def ginMiddlewareStages : List Stage := [.recovery, .logging]

/-- The stage order of GrpcUnaryInterceptors, src/grpc_interceptor.go lines
239-244: Recovery, Logging. -/
def grpcUnaryInterceptorsStages : List Stage := [.recovery, .logging]

/-- The teardown actions a shutdown procedure could perform. -/
inductive TeardownStep where
  | stopPeriodicReader
  | forceFlushMeterProvider
  | forceFlushTracerProvider
  | closeMetricsListener
  | shutdownTracerProvider
  | shutdownMeterProvider
deriving DecidableEq, Repr

/-- The error strings collected during shutdown, from src/otel.go lines
89-104: each failing step appends one formatted message, in the fixed step
order, and no failure prevents a later step from running and recording. The
three inputs are the error results of the metrics server shutdown, the
tracer provider shutdown and the meter provider shutdown. -/
def otelShutdownErrs (mErr tErr pErr : Option String) : List String :=
  (match mErr with
   | some e => ["metrics server shutdown error: " ++ e]
   | none => [])
  ++ (match tErr with
      | some e => ["tracer provider shutdown error: " ++ e]
      | none => [])
  ++ (match pErr with
      | some e => ["meter provider shutdown error: " ++ e]
      | none => [])

/-- The result of the shutdown procedure: the teardown steps it attempted,
in order, and the returned error value. -/
structure ShutdownOutcome where
  steps : List TeardownStep
  result : Except String Unit
deriving Repr

/-- The shutdown closure returned by InitOtel, src/otel.go lines 88-110. It
attempts exactly three steps, always all of them: shut down the metrics
HTTP server, then the tracer provider, then the meter provider; if any
recorded an error, it returns the single combined error, otherwise nil. -/
def otelShutdown (mErr tErr pErr : Option String) : ShutdownOutcome :=
  let errs := otelShutdownErrs mErr tErr pErr
  { steps := [.closeMetricsListener, .shutdownTracerProvider, .shutdownMeterProvider]
    result :=
      if errs.length > 0 then
        .error ("otel shutdown failures: " ++ String.intercalate "; " errs)
      else .ok () }

/-- The zap levels (go.uber.org/zap/zapcore). -/
inductive ZapLevel where
  | DebugLevel
  | InfoLevel
  | WarnLevel
  | ErrorLevel
  | DPanicLevel
  | PanicLevel
  | FatalLevel
deriving DecidableEq, Repr

/-- Level.unmarshalText from zapcore: accepts the lower-case and all-caps
names, and the empty string as info. -/
def zapUnmarshalText (s : String) : Option ZapLevel :=
  if s = "debug" || s = "DEBUG" then some .DebugLevel
  else if s = "info" || s = "INFO" || s = "" then some .InfoLevel
  else if s = "warn" || s = "WARN" then some .WarnLevel
  else if s = "error" || s = "ERROR" then some .ErrorLevel
  else if s = "dpanic" || s = "DPANIC" then some .DPanicLevel
  else if s = "panic" || s = "PANIC" then some .PanicLevel
  else if s = "fatal" || s = "FATAL" then some .FatalLevel
  else none

/-- ASCII lower-casing of a string (bytes.ToLower on level names). -/
def asciiLower (s : String) : String :=
  String.mk (s.data.map (fun c =>
    if 65 ≤ c.toNat ∧ c.toNat ≤ 90 then Char.ofNat (c.toNat + 32) else c))

/-- zapcore.ParseLevel: tries the text as given, then lower-cased; returns
none (an error in Go) when neither form is a level name. -/
def ParseLevel (s : String) : Option ZapLevel :=
  match zapUnmarshalText s with
  | some l => some l
  | none => zapUnmarshalText (asciiLower s)

/-- The BaseConfig fields read by NewLogger (the config struct itself is
declared in the config source file; only these three fields matter here). -/
structure BaseConfig where
  ServiceName : String
  Version : String
  LogLevel : String
deriving DecidableEq, Repr

/-- The observable construction result of NewLogger: the level of the core
and the service/version tags attached to every record. -/
structure LoggerModel where
  level : ZapLevel
  service : String
  version : String
deriving DecidableEq, Repr

/-- NewLogger from src/logger.go lines 16-43. Defaults are info level and
"unknown" service and version; with a non-nil config the level is taken
from ParseLevel only when parsing succeeds, and the service and version
tags come from the config. The construction is total: it never fails. -/
def NewLogger (cfg : Option BaseConfig) : LoggerModel :=
  match cfg with
  | none => ⟨.InfoLevel, "unknown", "unknown"⟩
  | some c =>
    { level :=
        match ParseLevel c.LogLevel with
        | some parsed => parsed
        | none => .InfoLevel
      service := c.ServiceName
      version := c.Version }

/-- Helper: the any-loop over an excluded-path list with string equality
computes list membership. -/
theorem any_beq_eq_decide_mem (path : String) (l : List String) :
    l.any (fun e => path == e) = decide (path ∈ l) := by
  induction l with
  | nil => rfl
  | cons a t ih =>
    simp only [List.any_cons, ih, List.mem_cons]
    by_cases h : path = a
    · simp [h]
    · simp [h]

/-- C6: for every middleware configuration and route path, the skip decision
is the predicate's result when a predicate is given (the excluded-path list
being ignored), otherwise string-equality membership in the excluded-path
list, otherwise — including an absent configuration — false. -/
theorem shouldSkipRoute_matches_spec (c : Option ObservabilityMiddlewareConfig)
    (path : String) :
    shouldSkipRoute c path = specSkipRoute c path
    ∧ shouldSkipRoute none path = false
    ∧ (∀ (f : String → Bool) (ps ps' : List String),
        shouldSkipRoute (some ⟨ps, some f⟩) path = f path
        ∧ shouldSkipRoute (some ⟨ps, some f⟩) path
            = shouldSkipRoute (some ⟨ps', some f⟩) path) := by
  refine ⟨?_, rfl, fun f ps ps' => ⟨rfl, rfl⟩⟩
  cases c with
  | none => rfl
  | some cfg =>
    cases h : cfg.SkipRoute with
    | some f => simp [shouldSkipRoute, specSkipRoute, h]
    | none => simp [shouldSkipRoute, specSkipRoute, h, any_beq_eq_decide_mem]

/-- C7: the request log severity is determined solely by the result code:
HTTP status ≥ 500 maps to error, 400-499 to warning, anything else to info;
gRPC OK maps to info, the fixed client-fault code set to warning, and any
other non-OK code to error. -/
theorem logSeverity_matches_spec :
    (∀ s : Nat, ginLogSeverity s = specHttpSeverity s)
    ∧ (∀ c : GrpcCode, grpcLogSeverity c = specGrpcSeverity c) := by
  constructor
  · intro s
    unfold ginLogSeverity specHttpSeverity
    split_ifs <;> first | rfl | (exfalso; omega)
  · intro c
    cases c <;> decide

/-- C3 counterexample: the RPC interceptor composition does not apply a
Tracing stage at all — it is Recovery followed by Logging — so it does not
apply Tracing first as the claim states. -/
theorem grpc_chain_lacks_tracing_stage :
    grpcUnaryInterceptorsStages ≠ [Stage.tracing, Stage.recovery, Stage.logging]
    ∧ Stage.tracing ∉ grpcUnaryInterceptorsStages := by
  decide

/-- C3 amended: the three-stage HTTP composition applies Tracing first, then
Recovery, then Logging; the two-stage HTTP composition and the RPC
interceptor composition both consist of Recovery followed by Logging, with
no Tracing stage. -/
theorem composition_stage_orders :
    ginMiddlewareWithConfigStages = [Stage.tracing, Stage.recovery, Stage.logging]
    ∧ ginMiddlewareStages = [Stage.recovery, Stage.logging]
    ∧ grpcUnaryInterceptorsStages = [Stage.recovery, Stage.logging]
    ∧ Stage.tracing ∉ ginMiddlewareStages := by
  decide

/-- C1: evidence of the divergence between code and documentation. The
shutdown procedure of src/otel.go attempts exactly the three steps
close-metrics-listener, shutdown-tracer-provider, shutdown-meter-provider,
in that order, for every input; it never stops a periodic reader and never
force-flushes either provider, although the claim (and the repository's own
docs/otel.md) state that those steps come first. -/
theorem otelShutdown_steps_lack_flush :
    (∀ mErr tErr pErr : Option String, (otelShutdown mErr tErr pErr).steps =
      [TeardownStep.closeMetricsListener, TeardownStep.shutdownTracerProvider,
       TeardownStep.shutdownMeterProvider])
    ∧ TeardownStep.stopPeriodicReader ∉ (otelShutdown none none none).steps
    ∧ TeardownStep.forceFlushMeterProvider ∉ (otelShutdown none none none).steps
    ∧ TeardownStep.forceFlushTracerProvider ∉ (otelShutdown none none none).steps := by
  exact ⟨fun m t p => rfl, by decide, by decide, by decide⟩

/-- C8: for every completed call, the log record includes the trace_id field
exactly when the trace identifier is neither empty nor the all-zero literal,
and the span_id field exactly when the span identifier is neither empty nor
the all-zero literal, for both the HTTP and the gRPC field builders. -/
theorem logFields_trace_span_presence (status : Nat)
    (method path query ip userAgent : String) (latencyMs : Int)
    (traceID spanID errorMessage fullMethod grpcCode : String)
    (errMessage : Option String) :
    hasKey (ginLogFields status method path query ip userAgent latencyMs
      traceID spanID errorMessage) "trace_id"
        = (traceID != "" && traceID != zeroTraceId)
    ∧ hasKey (ginLogFields status method path query ip userAgent latencyMs
        traceID spanID errorMessage) "span_id"
          = (spanID != "" && spanID != zeroSpanId)
    ∧ hasKey (grpcLogFields fullMethod grpcCode latencyMs traceID spanID
        errMessage) "trace_id" = (traceID != "" && traceID != zeroTraceId)
    ∧ hasKey (grpcLogFields fullMethod grpcCode latencyMs traceID spanID
        errMessage) "span_id" = (spanID != "" && spanID != zeroSpanId) := by
  cases errMessage <;>
    cases htid : (traceID != "" && traceID != zeroTraceId) <;>
    cases hsid : (spanID != "" && spanID != zeroSpanId) <;>
    cases herr : (errorMessage != "") <;>
    simp [ginLogFields, grpcLogFields, hasKey, htid, hsid, herr]

/-- C9: a failing teardown step is recorded without aborting the remaining
steps; the shutdown returns no error exactly when every step succeeded, and
otherwise returns the single combined error carrying every recorded
failure; being a total function it never raises a crash. -/
theorem otelShutdown_collects_all_failures (mErr tErr pErr : Option String) :
    ((otelShutdown mErr tErr pErr).result = Except.ok ()
        ↔ mErr = none ∧ tErr = none ∧ pErr = none)
    ∧ (∀ e, mErr = some e →
        ("metrics server shutdown error: " ++ e) ∈ otelShutdownErrs mErr tErr pErr)
    ∧ (∀ e, tErr = some e →
        ("tracer provider shutdown error: " ++ e) ∈ otelShutdownErrs mErr tErr pErr)
    ∧ (∀ e, pErr = some e →
        ("meter provider shutdown error: " ++ e) ∈ otelShutdownErrs mErr tErr pErr)
    ∧ (otelShutdownErrs mErr tErr pErr ≠ [] →
        (otelShutdown mErr tErr pErr).result =
          Except.error ("otel shutdown failures: "
            ++ String.intercalate "; " (otelShutdownErrs mErr tErr pErr))) := by
  cases mErr <;> cases tErr <;> cases pErr <;>
    simp [otelShutdown, otelShutdownErrs]

/-- C9 witness: with the metrics server and the meter provider failing and
the tracer provider succeeding, both failure messages are recorded and the
combined error is returned. -/
theorem otelShutdown_collects_all_failures_witness :
    ("metrics server shutdown error: em"
        ∈ otelShutdownErrs (some "em") none (some "ep"))
    ∧ ("meter provider shutdown error: ep"
        ∈ otelShutdownErrs (some "em") none (some "ep"))
    ∧ (otelShutdown (some "em") none (some "ep")).result =
        Except.error ("otel shutdown failures: "
          ++ String.intercalate "; " (otelShutdownErrs (some "em") none (some "ep"))) := by
  have h := otelShutdown_collects_all_failures (some "em") none (some "ep")
  exact ⟨h.2.1 "em" rfl, h.2.2.2.1 "ep" rfl, h.2.2.2.2 (by decide)⟩

/-- C10: NewLogger is total and never fails: a nil config yields the info
level with service and version tagged "unknown", and a config whose log
level string does not parse yields the info level with the config's tags. -/
theorem newLogger_total_with_defaults :
    NewLogger none = ⟨ZapLevel.InfoLevel, "unknown", "unknown"⟩
    ∧ (∀ cfg : BaseConfig, ParseLevel cfg.LogLevel = none →
        NewLogger (some cfg) = ⟨ZapLevel.InfoLevel, cfg.ServiceName, cfg.Version⟩) := by
  refine ⟨rfl, fun cfg h => ?_⟩
  simp [NewLogger, h]

/-- C10 witness: the string "invalid-level" does not parse as a zap level,
and a config carrying it yields an info-level logger. -/
theorem newLogger_total_with_defaults_witness :
    ParseLevel "invalid-level" = none
    ∧ NewLogger (some ⟨"svc", "v1", "invalid-level"⟩)
        = ⟨ZapLevel.InfoLevel, "svc", "v1"⟩ := by
  exact ⟨by decide,
    newLogger_total_with_defaults.2 ⟨"svc", "v1", "invalid-level"⟩ (by decide)⟩

/-- C2: a handler panic on a non-skip route is converted into the fixed
error response: HTTP status 500 with the fixed error and message strings,
the path, and the trace id only when valid; gRPC Internal with the fixed
message and the trace id only in the trailer. The response is independent of
the panic payload, which appears only in the server-side error log record
together with a stack trace. -/
theorem recovery_sanitizes_panics (cfg : Option ObservabilityMiddlewareConfig)
    (req : HttpRequest) (p : String)
    (hskip : shouldSkipRoute cfg req.path = false) :
    (runGinChain cfg req (.panics p)).outcome = .normal 500
    ∧ (runGinChain cfg req (.panics p)).response = some (500,
        ⟨"Internal Server Error", genericHttpMessage,
         if validTraceId req.traceID then req.traceID else "", req.path⟩)
    ∧ (runGinChain cfg req (.panics p)).panicLogs
        = [⟨p, req.traceID, req.path, req.method, true⟩]
    ∧ (∀ q : String, (runGinChain cfg req (.panics q)).response
        = (runGinChain cfg req (.panics p)).response)
    ∧ (∀ fullMethod tid : String,
        (grpcUnaryRecoveryInterceptor fullMethod tid (.panics p)).err
          = some ⟨.internal, genericGrpcMessage⟩
        ∧ (grpcUnaryRecoveryInterceptor fullMethod tid (.panics p)).trailer
          = (if validTraceId tid then [("trace_id", tid)] else [])
        ∧ (grpcUnaryRecoveryInterceptor fullMethod tid (.panics p)).panicLogs
          = [⟨p, tid, fullMethod, true⟩]
        ∧ (∀ q : String,
            (grpcUnaryRecoveryInterceptor fullMethod tid (.panics q)).err
              = (grpcUnaryRecoveryInterceptor fullMethod tid (.panics p)).err
            ∧ (grpcUnaryRecoveryInterceptor fullMethod tid (.panics q)).trailer
              = (grpcUnaryRecoveryInterceptor fullMethod tid (.panics p)).trailer)) := by
  simp [runGinChain, ginTracingWithConfig, ginRecoveryWithConfig,
    ginLoggerWithConfig, runHandler, grpcUnaryRecoveryInterceptor, hskip]

/-- C2 witness: on the non-skip route /x with a valid trace id, the panic
"boom" yields the fixed 500 body carrying that trace id, and the gRPC
recovery returns the fixed Internal status. -/
theorem recovery_sanitizes_panics_witness :
    shouldSkipRoute none "/x" = false
    ∧ (runGinChain none ⟨"/x", "GET", "abc"⟩ (.panics "boom")).response
        = some (500, ⟨"Internal Server Error", genericHttpMessage, "abc", "/x"⟩)
    ∧ (grpcUnaryRecoveryInterceptor "/pb.Svc/M" "abc" (.panics "boom")).err
        = some ⟨.internal, genericGrpcMessage⟩ := by
  have h := recovery_sanitizes_panics none ⟨"/x", "GET", "abc"⟩ "boom" rfl
  refine ⟨rfl, ?_, (h.2.2.2.2 "/pb.Svc/M" "abc").1⟩
  rw [h.2.1]
  decide

/-- C4: on a skip-configured route the chain creates no span and emits no
log record of any kind; on a non-skip route it creates exactly one span and
emits exactly one log record — the request log record when the handler
completes, the recovery error record when it panics. -/
theorem chain_span_and_log_counts (cfg : Option ObservabilityMiddlewareConfig)
    (req : HttpRequest) (h : HandlerOutcome) :
    (shouldSkipRoute cfg req.path = true →
        (runGinChain cfg req h).spans = 0
        ∧ (runGinChain cfg req h).requestLogs = 0
        ∧ (runGinChain cfg req h).panicLogs = [])
    ∧ (shouldSkipRoute cfg req.path = false →
        (runGinChain cfg req h).spans = 1
        ∧ (runGinChain cfg req h).requestLogs
            + (runGinChain cfg req h).panicLogs.length = 1
        ∧ (∀ s, h = .completes s →
            (runGinChain cfg req h).requestLogs = 1
            ∧ (runGinChain cfg req h).panicLogs = [])) := by
  constructor <;> intro hs <;> cases h <;>
    simp [runGinChain, ginTracingWithConfig, ginRecoveryWithConfig,
      ginLoggerWithConfig, runHandler, hs]

/-- C4 witness: with /health excluded, a request to /health produces no span
and no log, and a request to /api produces one span and one request log. -/
theorem chain_span_and_log_counts_witness :
    (runGinChain (some ⟨["/health"], none⟩) ⟨"/health", "GET", "t"⟩
      (.completes 200)).spans = 0
    ∧ (runGinChain (some ⟨["/health"], none⟩) ⟨"/health", "GET", "t"⟩
        (.completes 200)).requestLogs = 0
    ∧ (runGinChain (some ⟨["/health"], none⟩) ⟨"/api", "GET", "t"⟩
        (.completes 200)).spans = 1
    ∧ (runGinChain (some ⟨["/health"], none⟩) ⟨"/api", "GET", "t"⟩
        (.completes 200)).requestLogs = 1 := by
  have h1 := (chain_span_and_log_counts (some ⟨["/health"], none⟩)
    ⟨"/health", "GET", "t"⟩ (.completes 200)).1 (by decide)
  have h2 := (chain_span_and_log_counts (some ⟨["/health"], none⟩)
    ⟨"/api", "GET", "t"⟩ (.completes 200)).2 (by decide)
  exact ⟨h1.1, h1.2.1, h2.1, (h2.2.2 200 rfl).1⟩

/-- C5: a panic on a skip-configured route is re-raised unchanged: the chain
outcome is the original panic, no error log record is emitted, and no 500
response is produced. -/
theorem skip_route_panic_reraised (cfg : Option ObservabilityMiddlewareConfig)
    (req : HttpRequest) (p : String)
    (hskip : shouldSkipRoute cfg req.path = true) :
    runGinChain cfg req (.panics p) = ⟨.panicked p, 0, 0, [], none⟩ := by
  simp [runGinChain, ginTracingWithConfig, ginRecoveryWithConfig,
    ginLoggerWithConfig, runHandler, hskip]

/-- C5 witness: with /health excluded, a panicking request to /health
propagates the panic with no log and no response. -/
theorem skip_route_panic_reraised_witness :
    shouldSkipRoute (some ⟨["/health"], none⟩) "/health" = true
    ∧ runGinChain (some ⟨["/health"], none⟩) ⟨"/health", "GET", "t"⟩
        (.panics "boom") = ⟨.panicked "boom", 0, 0, [], none⟩ := by
  exact ⟨by decide,
    skip_route_panic_reraised (some ⟨["/health"], none⟩)
      ⟨"/health", "GET", "t"⟩ "boom" (by decide)⟩

end GoObservability
